import Mathlib

/-!
Verification of the `ship` CLI workflow engine.

This file embeds the pure state machine of `src/transitions.ts` (with the
state/event/effect model of `src/states.ts`) as Lean definitions, and proves
the specified properties of the transition function. Counts carried by the
git snapshot and by events (`unpushedCount`, `behind`, commit indices) are
modelled as `Nat`, matching the non-negative `git rev-list --count` outputs
they are parsed from.
-/

namespace Ship

/-- `GitContext` from `src/states.ts`: snapshot of repository state. -/
structure GitContext where
  currentBranch : String
  onMain : Bool
  hasStaged : Bool
  hasUnstaged : Bool
  hasUntracked : Bool
  hasChanges : Bool
  hasUpstream : Bool
  unpushedCount : Nat
  unmergedCount : Nat
  untrackedRaw : String
deriving Repr, DecidableEq

/-- File status tag of `FileEntry` in `src/states.ts`. -/
inductive FileStatus where
  | staged
  | modified
  | new
deriving Repr, DecidableEq

/-- `FileEntry` from `src/states.ts`. -/
structure FileEntry where
  path : String
  status : FileStatus
deriving Repr, DecidableEq

/-- `CommitDetails` from `src/states.ts`. -/
structure CommitDetails where
  branchName : String
  commitMessage : String
  prTitle : String
  prBody : String
deriving Repr, DecidableEq

/-- `PrDetails` from `src/states.ts`. -/
structure PrDetails where
  prTitle : String
  prBody : String
deriving Repr, DecidableEq

/-- `StackGroup` from `src/states.ts`. -/
structure StackGroup where
  files : List String
  commitMessage : String
deriving Repr, DecidableEq

instance : Inhabited StackGroup := ⟨⟨[], ""⟩⟩

/-- `StackPlan` from `src/states.ts`. -/
structure StackPlan where
  groups : List StackGroup
  branchName : String
  prTitle : String
  prBody : String
deriving Repr, DecidableEq

/-- The `postPush` continuation tag of the `pushing` state. -/
inductive PostPush where
  | check_pr
  | done
deriving Repr, DecidableEq

/-- The action carried by a `commit_action` event. -/
inductive CommitAction where
  | accept
  | edit
  | cancel
deriving Repr, DecidableEq

/-- The choice carried by a `post_commit_choice` event. -/
inductive PostCommitChoice where
  | create_pr
  | push_only
  | commit_more
  | done
deriving Repr, DecidableEq

/-- `State` from `src/states.ts`: the tagged union of machine states. -/
inductive State where
  | preflight
  | fast_path_logging (git : GitContext)
  | fast_path_pushing (git : GitContext) (commitLog : String)
  | fast_path_checking_pr (git : GitContext)
  | fast_path_generating_pr (git : GitContext) (diff : String)
  | fast_path_confirming_pr (git : GitContext) (prDetails : PrDetails)
  | fast_path_creating_pr (git : GitContext) (prDetails : PrDetails)
  | fast_path_confirming_merge (git : GitContext) (prUrl : String)
  | fast_path_merging (git : GitContext) (prUrl : String)
  | collecting_files (git : GitContext)
  | picking_files (git : GitContext) (files : List FileEntry)
  | staging_files (git : GitContext) (selectedFiles : List String)
  | getting_diff (git : GitContext)
  | generating_details (git : GitContext) (diff : String)
  | confirming_branch (git : GitContext) (details : CommitDetails)
  | confirming_commit (git : GitContext) (details : CommitDetails) (branchName : String)
  | editing_commit (git : GitContext) (details : CommitDetails) (branchName : String)
  | committing (git : GitContext) (details : CommitDetails) (branchName : String) (commitMessage : String)
  | post_commit_checking_pr (git : GitContext) (details : CommitDetails) (branchName : String)
  | post_commit (git : GitContext) (details : CommitDetails) (branchName : String) (prUrl : Option String)
  | pushing (git : GitContext) (branchName : String) (details : CommitDetails) (postPush : PostPush)
  | checking_pr (git : GitContext) (details : CommitDetails) (branchName : String)
  | confirming_pr (git : GitContext) (details : CommitDetails) (branchName : String)
  | stack_committing (git : GitContext) (plan : StackPlan) (currentIndex : Nat)
  | creating_pr (git : GitContext) (details : CommitDetails) (branchName : String)
  | confirming_merge (git : GitContext) (branchName : String) (prUrl : String)
  | merging (git : GitContext) (branchName : String) (prUrl : String)
  | checking_remote (git : GitContext)
  | confirming_pull (git : GitContext) (behind : Nat)
  | pulling (git : GitContext)
  | done (message : String)
  | cancelled (message : String)
  | error (message : String)
  | nothing_to_ship
  | merge_conflict (git : GitContext) (message : String)
deriving Repr, DecidableEq

/-- `Event` from `src/states.ts`: outcomes of performing one effect. -/
inductive Event where
  | tools_ok (git : GitContext)
  | commit_log_ready (commitLog : String)
  | push_done
  | pr_exists (prUrl : String)
  | no_pr
  | diff_ready (diff : String)
  | pr_details_generated (prDetails : PrDetails)
  | pr_details_failed
  | confirm_pr (accepted : Bool)
  | pr_created (prUrl : String)
  | confirm_merge (accepted : Bool)
  | merge_done (prUrl : String)
  | files_collected (files : List FileEntry)
  | files_picked (selectedFiles : List String)
  | files_staged (shortStat : String)
  | details_generated (details : CommitDetails)
  | details_failed
  | branch_confirmed (branchName : String)
  | commit_action (action : CommitAction)
  | commit_edited (commitMessage : String)
  | commit_done
  | pr_skip
  | merge_skip (prUrl : String) (branchName : String)
  | user_cancelled
  | remote_status (behind : Nat)
  | confirm_pull (accepted : Bool)
  | pull_done
  | pull_conflict (message : String)
  | post_commit_choice (choice : PostCommitChoice)
  | stack_plan_generated (plan : StackPlan)
  | stack_commit_done (nextIndex : Nat)
deriving Repr, DecidableEq

/-- `Effect` from `src/states.ts`: externally-observable actions. -/
inductive Effect where
  | check_tools
  | log_info (message : String)
  | show_note (content : String) (title : String)
  | show_commit_log (git : GitContext)
  | push_branch (branch : String)
  | check_existing_pr (branch : String)
  | get_diff_main
  | generate_pr_details (diff : String)
  | prompt_confirm_pr (prDetails : PrDetails)
  | create_pr (branch : String) (prDetails : PrDetails)
  | log_pr_found (prUrl : String)
  | log_pr_created (prUrl : String)
  | prompt_confirm_merge (prUrl : String)
  | merge_and_cleanup (prUrl : String) (onMain : Bool)
  | collect_files (git : GitContext)
  | prompt_file_picker (files : List FileEntry)
  | stage_files (selectedFiles : List String)
  | get_staged_diff
  | generate_commit_details (diff : String)
  | prompt_branch_name (suggestion : String)
  | show_commit_message (commitMessage : String)
  | prompt_commit_action
  | open_editor (commitMessage : String)
  | commit_only (branchName : String) (commitMessage : String) (onMain : Bool)
  | log_pr_exists (prUrl : String)
  | show_pr_details (details : CommitDetails)
  | prompt_create_pr (details : CommitDetails)
  | create_full_pr (branch : String) (details : CommitDetails)
  | log_merge_skip (prUrl : String) (branchName : String) (onMain : Bool)
  | log_pr_skip (branchName : String)
  | unstage_all
  | check_remote_status (branch : String)
  | prompt_confirm_pull (behind : Nat)
  | pull_remote (branch : String)
  | prompt_post_commit (prUrl : Option String)
  | execute_stack_commit (group : StackGroup) (branchName : String) (isFirst : Bool) (onMain : Bool) (index : Nat)
deriving Repr, DecidableEq

/-- The discriminant string of a state, as in the TypeScript `state.kind` field. -/
def State.kind : State → String
  | .preflight => "preflight"
  | .fast_path_logging _ => "fast_path_logging"
  | .fast_path_pushing _ _ => "fast_path_pushing"
  | .fast_path_checking_pr _ => "fast_path_checking_pr"
  | .fast_path_generating_pr _ _ => "fast_path_generating_pr"
  | .fast_path_confirming_pr _ _ => "fast_path_confirming_pr"
  | .fast_path_creating_pr _ _ => "fast_path_creating_pr"
  | .fast_path_confirming_merge _ _ => "fast_path_confirming_merge"
  | .fast_path_merging _ _ => "fast_path_merging"
  | .collecting_files _ => "collecting_files"
  | .picking_files _ _ => "picking_files"
  | .staging_files _ _ => "staging_files"
  | .getting_diff _ => "getting_diff"
  | .generating_details _ _ => "generating_details"
  | .confirming_branch _ _ => "confirming_branch"
  | .confirming_commit _ _ _ => "confirming_commit"
  | .editing_commit _ _ _ => "editing_commit"
  | .committing _ _ _ _ => "committing"
  | .post_commit_checking_pr _ _ _ => "post_commit_checking_pr"
  | .post_commit _ _ _ _ => "post_commit"
  | .pushing _ _ _ _ => "pushing"
  | .checking_pr _ _ _ => "checking_pr"
  | .confirming_pr _ _ _ => "confirming_pr"
  | .stack_committing _ _ _ => "stack_committing"
  | .creating_pr _ _ _ => "creating_pr"
  | .confirming_merge _ _ _ => "confirming_merge"
  | .merging _ _ _ => "merging"
  | .checking_remote _ => "checking_remote"
  | .confirming_pull _ _ => "confirming_pull"
  | .pulling _ => "pulling"
  | .done _ => "done"
  | .cancelled _ => "cancelled"
  | .error _ => "error"
  | .nothing_to_ship => "nothing_to_ship"
  | .merge_conflict _ _ => "merge_conflict"

/-- The discriminant string of an event, as in the TypeScript `event.kind` field. -/
def Event.kind : Event → String
  | .tools_ok _ => "tools_ok"
  | .commit_log_ready _ => "commit_log_ready"
  | .push_done => "push_done"
  | .pr_exists _ => "pr_exists"
  | .no_pr => "no_pr"
  | .diff_ready _ => "diff_ready"
  | .pr_details_generated _ => "pr_details_generated"
  | .pr_details_failed => "pr_details_failed"
  | .confirm_pr _ => "confirm_pr"
  | .pr_created _ => "pr_created"
  | .confirm_merge _ => "confirm_merge"
  | .merge_done _ => "merge_done"
  | .files_collected _ => "files_collected"
  | .files_picked _ => "files_picked"
  | .files_staged _ => "files_staged"
  | .details_generated _ => "details_generated"
  | .details_failed => "details_failed"
  | .branch_confirmed _ => "branch_confirmed"
  | .commit_action _ => "commit_action"
  | .commit_edited _ => "commit_edited"
  | .commit_done => "commit_done"
  | .pr_skip => "pr_skip"
  | .merge_skip _ _ => "merge_skip"
  | .user_cancelled => "user_cancelled"
  | .remote_status _ => "remote_status"
  | .confirm_pull _ => "confirm_pull"
  | .pull_done => "pull_done"
  | .pull_conflict _ => "pull_conflict"
  | .post_commit_choice _ => "post_commit_choice"
  | .stack_plan_generated _ => "stack_plan_generated"
  | .stack_commit_done _ => "stack_commit_done"

/-- `isTerminal` from `src/states.ts`. -/
def isTerminal : State → Bool
  | .done _ => true
  | .cancelled _ => true
  | .error _ => true
  | .nothing_to_ship => true
  | .merge_conflict _ _ => true
  | _ => false

/-- Whether a state is the `cancelled` terminal state. -/
def State.isCancelled : State → Bool
  | .cancelled _ => true
  | _ => false

/-- Whether a state is the `error` terminal state. -/
def State.isError : State → Bool
  | .error _ => true
  | _ => false

/-- `Transition` from `src/transitions.ts`: next state plus ordered effects. -/
structure Transition where
  state : State
  effects : List Effect
deriving Repr, DecidableEq

/-- `invalid` from `src/transitions.ts`. -/
def invalid (state : State) (event : Event) : Transition :=
  ⟨.error ("Unexpected event \"" ++ event.kind ++ "\" in state \"" ++ state.kind ++ "\""), []⟩

/-- `continueAfterPullCheck` from `src/transitions.ts`. -/
def continueAfterPullCheck (git : GitContext) : Transition :=
  if !git.hasChanges && git.unpushedCount == 0 && git.unmergedCount == 0 then
    ⟨.nothing_to_ship, []⟩
  else if !git.hasChanges && (git.unpushedCount > 0 || git.unmergedCount > 0) then
    ⟨.fast_path_logging git, [.show_commit_log git]⟩
  else
    ⟨.collecting_files git, [.collect_files git]⟩

/-- `startStackCommitting` from `src/transitions.ts`. The unguarded
`plan.groups[0]!` of the source is modelled by `getElem!` (panic-default
indexing), preserving the absence of an emptiness guard. -/
def startStackCommitting (git : GitContext) (plan : StackPlan) : Transition :=
  ⟨.stack_committing git plan 0,
    [.execute_stack_commit (plan.groups[0]!) plan.branchName true git.onMain 0]⟩

/-- `transition` from `src/transitions.ts`: the pure workflow step function. -/
def transition (state : State) (event : Event) : Transition :=
  match state with
  -- Preflight
  | .preflight =>
    match event with
    | .tools_ok git =>
      if !git.hasChanges && git.unpushedCount == 0 && git.unmergedCount == 0 then
        ⟨.nothing_to_ship, []⟩
      else if !git.onMain && git.hasUpstream then
        ⟨.checking_remote git, [.check_remote_status git.currentBranch]⟩
      else
        continueAfterPullCheck git
    | e => invalid .preflight e
  -- Pull check
  | .checking_remote git =>
    match event with
    | .remote_status behind =>
      if behind > 0 then
        ⟨.confirming_pull git behind, [.prompt_confirm_pull behind]⟩
      else
        continueAfterPullCheck git
    | e => invalid (.checking_remote git) e
  | .confirming_pull git behind =>
    match event with
    | .confirm_pull accepted =>
      if accepted then
        ⟨.pulling git, [.pull_remote git.currentBranch]⟩
      else
        continueAfterPullCheck git
    | e => invalid (.confirming_pull git behind) e
  | .pulling git =>
    match event with
    | .pull_done => ⟨.preflight, [.check_tools]⟩
    | .pull_conflict message => ⟨.merge_conflict git message, []⟩
    | e => invalid (.pulling git) e
  -- Fast path
  | .fast_path_logging git =>
    match event with
    | .commit_log_ready commitLog =>
      if git.unpushedCount > 0 then
        ⟨.fast_path_pushing git commitLog, [.push_branch git.currentBranch]⟩
      else
        ⟨.fast_path_checking_pr git, [.check_existing_pr git.currentBranch]⟩
    | e => invalid (.fast_path_logging git) e
  | .fast_path_pushing git commitLog =>
    match event with
    | .push_done =>
      ⟨.fast_path_checking_pr git, [.check_existing_pr git.currentBranch]⟩
    | e => invalid (.fast_path_pushing git commitLog) e
  | .fast_path_checking_pr git =>
    match event with
    | .pr_exists prUrl =>
      ⟨.fast_path_confirming_merge git prUrl,
        [.log_pr_found prUrl, .prompt_confirm_merge prUrl]⟩
    | .no_pr =>
      ⟨.fast_path_generating_pr git "", [.get_diff_main]⟩
    | e => invalid (.fast_path_checking_pr git) e
  | .fast_path_generating_pr git diff0 =>
    match event with
    | .diff_ready diff =>
      ⟨.fast_path_generating_pr git diff, [.generate_pr_details diff]⟩
    | .pr_details_generated prDetails =>
      ⟨.fast_path_confirming_pr git prDetails, [.prompt_confirm_pr prDetails]⟩
    | .pr_details_failed =>
      ⟨.done "Branch pushed. Create PR manually.", []⟩
    | .user_cancelled =>
      ⟨.done "Branch pushed. Create PR manually.", []⟩
    | e => invalid (.fast_path_generating_pr git diff0) e
  | .fast_path_confirming_pr git prDetails =>
    match event with
    | .confirm_pr accepted =>
      if !accepted then
        ⟨.done "Branch pushed.", [.log_pr_skip git.currentBranch]⟩
      else
        ⟨.fast_path_creating_pr git prDetails, [.create_pr git.currentBranch prDetails]⟩
    | e => invalid (.fast_path_confirming_pr git prDetails) e
  | .fast_path_creating_pr git prDetails =>
    match event with
    | .pr_created prUrl =>
      ⟨.fast_path_confirming_merge git prUrl,
        [.log_pr_created prUrl, .prompt_confirm_merge prUrl]⟩
    | e => invalid (.fast_path_creating_pr git prDetails) e
  | .fast_path_confirming_merge git prUrl =>
    match event with
    | .confirm_merge accepted =>
      if !accepted then
        ⟨.done ("PR open: " ++ prUrl),
          [.log_merge_skip prUrl git.currentBranch git.onMain]⟩
      else
        ⟨.fast_path_merging git prUrl, [.merge_and_cleanup prUrl git.onMain]⟩
    | e => invalid (.fast_path_confirming_merge git prUrl) e
  | .fast_path_merging git prUrl0 =>
    match event with
    | .merge_done prUrl => ⟨.done ("Shipped! " ++ prUrl), []⟩
    | e => invalid (.fast_path_merging git prUrl0) e
  -- Full path
  | .collecting_files git =>
    match event with
    | .files_collected files =>
      ⟨.picking_files git files, [.prompt_file_picker files]⟩
    | e => invalid (.collecting_files git) e
  | .picking_files git files =>
    match event with
    | .user_cancelled => ⟨.cancelled "Cancelled.", []⟩
    | .stack_plan_generated plan => startStackCommitting git plan
    | .files_picked selectedFiles =>
      ⟨.staging_files git selectedFiles, [.stage_files selectedFiles]⟩
    | e => invalid (.picking_files git files) e
  | .staging_files git selectedFiles =>
    match event with
    | .files_staged shortStat =>
      ⟨.getting_diff git, [.log_info shortStat, .get_staged_diff]⟩
    | e => invalid (.staging_files git selectedFiles) e
  | .getting_diff git =>
    match event with
    | .diff_ready diff =>
      ⟨.generating_details git diff, [.generate_commit_details diff]⟩
    | e => invalid (.getting_diff git) e
  | .generating_details git diff0 =>
    match event with
    | .details_generated details =>
      if git.onMain then
        ⟨.confirming_branch git details, [.prompt_branch_name details.branchName]⟩
      else
        ⟨.confirming_commit git details git.currentBranch,
          [.show_commit_message details.commitMessage, .prompt_commit_action]⟩
    | .details_failed =>
      ⟨.cancelled "Aborted.", [.unstage_all]⟩
    | .user_cancelled =>
      ⟨.cancelled "Aborted.", [.unstage_all]⟩
    | e => invalid (.generating_details git diff0) e
  | .confirming_branch git details =>
    match event with
    | .user_cancelled =>
      ⟨.cancelled "Cancelled.", [.unstage_all]⟩
    | .branch_confirmed branchName =>
      ⟨.confirming_commit git details branchName,
        [.show_commit_message details.commitMessage, .prompt_commit_action]⟩
    | e => invalid (.confirming_branch git details) e
  | .confirming_commit git details branchName =>
    match event with
    | .commit_action action =>
      match action with
      | .cancel => ⟨.cancelled "Aborted.", [.unstage_all]⟩
      | .edit =>
        ⟨.editing_commit git details branchName, [.open_editor details.commitMessage]⟩
      | .accept =>
        ⟨.committing git details branchName details.commitMessage,
          [.commit_only branchName details.commitMessage git.onMain]⟩
    | e => invalid (.confirming_commit git details branchName) e
  | .editing_commit git details branchName =>
    match event with
    | .commit_edited commitMessage =>
      ⟨.committing git details branchName commitMessage,
        [.commit_only branchName commitMessage git.onMain]⟩
    | e => invalid (.editing_commit git details branchName) e
  | .committing git details branchName commitMessage =>
    match event with
    | .commit_done =>
      ⟨.post_commit_checking_pr { git with onMain := false } details branchName,
        [.check_existing_pr branchName]⟩
    | e => invalid (.committing git details branchName commitMessage) e
  | .post_commit_checking_pr git details branchName =>
    match event with
    | .pr_exists prUrl =>
      ⟨.post_commit git details branchName (some prUrl), [.prompt_post_commit (some prUrl)]⟩
    | .no_pr =>
      ⟨.post_commit git details branchName none, [.prompt_post_commit none]⟩
    | e => invalid (.post_commit_checking_pr git details branchName) e
  -- Post-commit hub
  | .post_commit git details branchName prUrl0 =>
    match event with
    | .post_commit_choice choice =>
      match choice with
      | .create_pr =>
        ⟨.pushing git branchName details .check_pr, [.push_branch branchName]⟩
      | .push_only =>
        ⟨.pushing git branchName details .done, [.push_branch branchName]⟩
      | .commit_more =>
        ⟨.collecting_files git, [.collect_files git]⟩
      | .done => ⟨.done "Committed locally.", []⟩
    | e => invalid (.post_commit git details branchName prUrl0) e
  -- Pushing
  | .pushing git branchName details postPush =>
    match event with
    | .push_done =>
      match postPush with
      | .check_pr =>
        ⟨.checking_pr git details branchName, [.check_existing_pr branchName]⟩
      | .done => ⟨.done "Pushed.", []⟩
    | e => invalid (.pushing git branchName details postPush) e
  | .checking_pr git details branchName =>
    match event with
    | .pr_exists prUrl =>
      ⟨.confirming_merge git branchName prUrl,
        [.log_pr_exists prUrl, .prompt_confirm_merge prUrl]⟩
    | .no_pr =>
      ⟨.confirming_pr git details branchName,
        [.show_pr_details details, .prompt_create_pr details]⟩
    | e => invalid (.checking_pr git details branchName) e
  | .confirming_pr git details branchName =>
    match event with
    | .user_cancelled => ⟨.cancelled "Cancelled.", []⟩
    | .confirm_pr accepted =>
      if !accepted then
        ⟨.done "Done.", [.log_pr_skip branchName]⟩
      else
        ⟨.creating_pr git details branchName, [.create_full_pr branchName details]⟩
    | e => invalid (.confirming_pr git details branchName) e
  | .creating_pr git details branchName =>
    match event with
    | .pr_created prUrl =>
      ⟨.confirming_merge git branchName prUrl,
        [.log_pr_created prUrl, .prompt_confirm_merge prUrl]⟩
    | e => invalid (.creating_pr git details branchName) e
  | .confirming_merge git branchName prUrl =>
    match event with
    | .user_cancelled => ⟨.cancelled "Cancelled.", []⟩
    | .confirm_merge accepted =>
      if !accepted then
        ⟨.done ("PR open: " ++ prUrl), [.log_merge_skip prUrl branchName git.onMain]⟩
      else
        ⟨.merging git branchName prUrl, [.merge_and_cleanup prUrl git.onMain]⟩
    | e => invalid (.confirming_merge git branchName prUrl) e
  | .merging git branchName prUrl0 =>
    match event with
    | .merge_done prUrl => ⟨.done ("Shipped! " ++ prUrl), []⟩
    | e => invalid (.merging git branchName prUrl0) e
  -- Stack committing
  | .stack_committing git plan currentIndex =>
    match event with
    | .stack_commit_done nextIndex =>
      if nextIndex < plan.groups.length then
        ⟨.stack_committing git plan nextIndex,
          [.execute_stack_commit (plan.groups[nextIndex]!) plan.branchName false false nextIndex]⟩
      else
        ⟨.post_commit_checking_pr { git with onMain := false }
            ⟨(if git.onMain then plan.branchName else git.currentBranch),
              String.intercalate "\n" (plan.groups.map StackGroup.commitMessage),
              plan.prTitle, plan.prBody⟩
            (if git.onMain then plan.branchName else git.currentBranch),
          [.check_existing_pr (if git.onMain then plan.branchName else git.currentBranch)]⟩
    | e => invalid (.stack_committing git plan currentIndex) e
  -- Terminal states should never receive events
  | .done message => invalid (.done message) event
  | .cancelled message => invalid (.cancelled message) event
  | .error message => invalid (.error message) event
  | .nothing_to_ship => invalid .nothing_to_ship event
  | .merge_conflict git message => invalid (.merge_conflict git message) event

/-- Modelled from `EffectExecutor.execute`, case `check_tools` (effects file):
when the `gh` CLI lookup fails the executor logs an error and returns a
`user_cancelled` event — it does not throw; otherwise it returns `tools_ok`
carrying the probed `GitContext` (the git probes are abstracted as `probed`). -/
def executeCheckTools (ghOk : Bool) (probed : GitContext) : Event :=
  if !ghOk then .user_cancelled else .tools_ok probed

/-! Concrete sample data used by witnesses and counterexamples. -/

/-- A feature-branch snapshot with uncommitted changes. -/
def sampleGit : GitContext :=
  ⟨"feat-x", false, false, true, false, true, false, 0, 0, ""⟩

/-- A clean working tree (`hasChanges = false`, both counts zero) whose other
fields are deliberately unusual: on trunk is false, an upstream exists, and
the individual staged/unstaged/untracked flags are set. -/
def cleanOddGit : GitContext :=
  ⟨"weird", false, true, true, true, false, true, 0, 0, "x"⟩

def sampleDetails : CommitDetails :=
  ⟨"feat-foo", "feat: add foo", "feat: add foo", "body"⟩

def samplePlan : StackPlan :=
  ⟨[⟨["a.ts"], "feat: part one"⟩, ⟨["b.ts"], "feat: part two"⟩],
    "feat-stack", "feat: stack", "stack body"⟩

set_option maxHeartbeats 1600000

/-- C1: every terminal state (`done`, `cancelled`, `error`, `nothing_to_ship`,
`merge_conflict`) rejects every event: the transition returns the `error`
terminal state with a diagnostic naming both the event and the state, and an
empty effect list. -/
theorem terminal_states_reject_all_events (s : State) (e : Event)
    (h : isTerminal s = true) :
    transition s e =
      ⟨.error ("Unexpected event \"" ++ e.kind ++ "\" in state \"" ++ s.kind ++ "\""),
        []⟩ := by
  cases s <;> simp [isTerminal] at h <;> (try (cases e <;> rfl))

/-- Witness for C1 at the concrete terminal state `nothing_to_ship` and the
concrete event `push_done`. -/
theorem terminal_states_reject_all_events_witness :
    isTerminal .nothing_to_ship = true ∧
      transition .nothing_to_ship .push_done =
        ⟨.error "Unexpected event \"push_done\" in state \"nothing_to_ship\"", []⟩ :=
  ⟨rfl, by
    have h := terminal_states_reject_all_events .nothing_to_ship .push_done rfl
    simpa [State.kind, Event.kind] using h⟩

/-- C5: a `tools_ok` event whose `GitContext` has `hasChanges = false`,
`unpushedCount = 0` and `unmergedCount = 0` sends `preflight` to
`nothing_to_ship` with no effects, regardless of every other field. -/
theorem preflight_clean_tree_nothing_to_ship (g : GitContext)
    (h1 : g.hasChanges = false) (h2 : g.unpushedCount = 0) (h3 : g.unmergedCount = 0) :
    transition .preflight (.tools_ok g) = ⟨.nothing_to_ship, []⟩ := by
  simp [transition, h1, h2, h3]

/-- Witness for C5 on a clean snapshot whose other fields are all unusual. -/
theorem preflight_clean_tree_nothing_to_ship_witness :
    cleanOddGit.hasChanges = false ∧
      transition .preflight (.tools_ok cleanOddGit) = ⟨.nothing_to_ship, []⟩ :=
  ⟨rfl, preflight_clean_tree_nothing_to_ship cleanOddGit rfl rfl rfl⟩

/-- C8: `committing` plus `commit_done` moves to `post_commit_checking_pr`,
with the git context equal to the input context except `onMain := false`,
details and branch name unchanged, and exactly one `check_existing_pr` effect
for that branch. -/
theorem committing_commit_done_frame (git : GitContext) (details : CommitDetails)
    (branchName commitMessage : String) :
    transition (.committing git details branchName commitMessage) .commit_done =
      ⟨.post_commit_checking_pr { git with onMain := false } details branchName,
        [.check_existing_pr branchName]⟩ := rfl

/-- C2 counterexample: `user_cancelled` in `fast_path_generating_pr` does not
yield `cancelled` — it yields the `done` terminal state. -/
theorem user_cancelled_not_uniformly_cancelled :
    (transition (.fast_path_generating_pr sampleGit "") .user_cancelled).state
        = .done "Branch pushed. Create PR manually." ∧
      State.isCancelled
        (transition (.fast_path_generating_pr sampleGit "") .user_cancelled).state
        = false :=
  ⟨rfl, rfl⟩

/-- C2 amended: `user_cancelled` yields `cancelled` from `picking_files`,
`confirming_branch`, `confirming_pr` and `confirming_merge` (with an
`unstage_all` effect from `confirming_branch`), but from
`fast_path_generating_pr` it yields `done`, and `fast_path_confirming_pr`,
`fast_path_confirming_merge` and `confirming_commit` reject it as an invalid
event, producing the `error` terminal state. -/
theorem user_cancelled_outcomes_by_state (git : GitContext) (files : List FileEntry)
    (details : CommitDetails) (prd : PrDetails) (bn prUrl diff : String) :
    transition (.picking_files git files) .user_cancelled =
        ⟨.cancelled "Cancelled.", []⟩ ∧
      transition (.confirming_branch git details) .user_cancelled =
        ⟨.cancelled "Cancelled.", [.unstage_all]⟩ ∧
      transition (.confirming_pr git details bn) .user_cancelled =
        ⟨.cancelled "Cancelled.", []⟩ ∧
      transition (.confirming_merge git bn prUrl) .user_cancelled =
        ⟨.cancelled "Cancelled.", []⟩ ∧
      transition (.fast_path_generating_pr git diff) .user_cancelled =
        ⟨.done "Branch pushed. Create PR manually.", []⟩ ∧
      transition (.fast_path_confirming_pr git prd) .user_cancelled =
        invalid (.fast_path_confirming_pr git prd) .user_cancelled ∧
      transition (.fast_path_confirming_merge git prUrl) .user_cancelled =
        invalid (.fast_path_confirming_merge git prUrl) .user_cancelled ∧
      transition (.confirming_commit git details bn) .user_cancelled =
        invalid (.confirming_commit git details bn) .user_cancelled :=
  ⟨rfl, rfl, rfl, rfl, rfl, rfl, rfl, rfl⟩

/-- C7 counterexample: with `gh` missing the tool check does return
`user_cancelled`, but feeding that event to `preflight` produces the `error`
terminal state, not the `cancelled` one. -/
theorem missing_gh_not_cancelled :
    executeCheckTools false sampleGit = .user_cancelled ∧
      (transition .preflight .user_cancelled).state =
        .error "Unexpected event \"user_cancelled\" in state \"preflight\"" ∧
      State.isCancelled (transition .preflight .user_cancelled).state = false :=
  ⟨rfl, by decide, by decide⟩

/-- C7 amended: if `gh` is missing the tool-check effect returns a
`user_cancelled` event instead of throwing past the run loop, and feeding that
event to the machine in `preflight` yields the terminal `error` state (so the
run halts), not the `cancelled` state. -/
theorem missing_gh_halts_run (probed : GitContext) :
    executeCheckTools false probed = .user_cancelled ∧
      transition .preflight .user_cancelled =
        ⟨.error "Unexpected event \"user_cancelled\" in state \"preflight\"", []⟩ ∧
      isTerminal (transition .preflight .user_cancelled).state = true :=
  ⟨rfl, by decide, by decide⟩

/-- C9: `startStackCommitting` reads the plan's group list at index 0 without
an emptiness guard; whenever the list is non-empty the access is in bounds and
the emitted `execute_stack_commit` effect carries the first group with
`isFirst = true` and `index = 0`, while the later accesses inside
`stack_committing` are guarded by `nextIndex < plan.groups.length`. -/
theorem stack_group_index_access (git : GitContext) (plan : StackPlan)
    (h : 0 < plan.groups.length) :
    startStackCommitting git plan =
      ⟨.stack_committing git plan 0,
        [.execute_stack_commit (plan.groups.get ⟨0, h⟩) plan.branchName true git.onMain 0]⟩
    ∧ ∀ (j k : Nat) (h2 : k < plan.groups.length),
        transition (.stack_committing git plan j) (.stack_commit_done k) =
          ⟨.stack_committing git plan k,
            [.execute_stack_commit (plan.groups.get ⟨k, h2⟩) plan.branchName false false k]⟩ := by
  constructor
  · simp [startStackCommitting, getElem!_pos plan.groups 0 h, List.get_eq_getElem]
  · intro j k h2
    simp [transition, h2, getElem!_pos plan.groups k h2, List.get_eq_getElem]

/-- Witness for C9 on a concrete two-group plan. -/
theorem stack_group_index_access_witness :
    0 < samplePlan.groups.length ∧
      startStackCommitting sampleGit samplePlan =
        ⟨.stack_committing sampleGit samplePlan 0,
          [.execute_stack_commit ⟨["a.ts"], "feat: part one"⟩ "feat-stack" true false 0]⟩ :=
  ⟨by decide, (stack_group_index_access sampleGit samplePlan (by decide)).1⟩

/-- C10: when stack committing completes (`stack_commit_done` with
`nextIndex` at or past the number of groups), the synthesized branch name —
in the details, in the new state, and in the `check_existing_pr` effect — is
`git.currentBranch` when `git.onMain` is false, and the plan's shared
`branchName` only when `git.onMain` is true. -/
theorem stack_completion_branch_choice (git : GitContext) (plan : StackPlan)
    (j k : Nat) (h : plan.groups.length ≤ k) :
    (git.onMain = false →
      transition (.stack_committing git plan j) (.stack_commit_done k) =
        ⟨.post_commit_checking_pr { git with onMain := false }
            ⟨git.currentBranch,
              String.intercalate "\n" (plan.groups.map StackGroup.commitMessage),
              plan.prTitle, plan.prBody⟩
            git.currentBranch,
          [.check_existing_pr git.currentBranch]⟩)
    ∧ (git.onMain = true →
      transition (.stack_committing git plan j) (.stack_commit_done k) =
        ⟨.post_commit_checking_pr { git with onMain := false }
            ⟨plan.branchName,
              String.intercalate "\n" (plan.groups.map StackGroup.commitMessage),
              plan.prTitle, plan.prBody⟩
            plan.branchName,
          [.check_existing_pr plan.branchName]⟩) := by
  have hn : ¬ k < plan.groups.length := Nat.not_lt.mpr h
  constructor <;> intro hm <;> simp [transition, hn, hm]

/-- Drive the machine through a list of events, starting from a state,
collecting every emitted effect in order (the run loop of the CLI entry
point, restricted to the pure transition function). -/
def runMachine : State → List Event → State × List Effect
  | s, [] => (s, [])
  | s, e :: es =>
    let t := transition s e
    let r := runMachine t.state es
    (r.1, t.effects ++ r.2)

/-- The branch the stack path lands on: the plan's shared branch name when the
run started on trunk, the current branch otherwise (`actualBranch` in the
source). -/
def stackBranch (git : GitContext) (plan : StackPlan) : String :=
  if git.onMain then plan.branchName else git.currentBranch

/-- The state reached once every stack group is committed. -/
def stackFinalState (git : GitContext) (plan : StackPlan) : State :=
  .post_commit_checking_pr { git with onMain := false }
    ⟨stackBranch git plan,
      String.intercalate "\n" (plan.groups.map StackGroup.commitMessage),
      plan.prTitle, plan.prBody⟩
    (stackBranch git plan)

/-- One step of `runMachine`. -/
theorem runMachine_cons (s : State) (e : Event) (es : List Event) :
    runMachine s (e :: es) =
      ((runMachine (transition s e).state es).1,
        (transition s e).effects ++ (runMachine (transition s e).state es).2) := rfl

/-- Driving `stack_committing` at index `k` with the in-order completion
events `k+1, …, plan.groups.length` emits the loop effects for indices
`k+1, …, plan.groups.length - 1` and ends in the synthesized
`post_commit_checking_pr` state. -/
theorem runMachine_stack_loop (git : GitContext) (plan : StackPlan) :
    ∀ (m k : Nat), k + m + 1 = plan.groups.length →
      runMachine (.stack_committing git plan k)
          ((List.range' (k+1) (m+1)).map Event.stack_commit_done) =
        (stackFinalState git plan,
          (List.range' (k+1) m).map (fun i =>
            Effect.execute_stack_commit (plan.groups[i]!) plan.branchName false false i)
          ++ [.check_existing_pr (stackBranch git plan)]) := by
  intro m
  induction m with
  | zero =>
    intro k hk
    have hn : ¬ (k + 1 < plan.groups.length) := by omega
    simp [runMachine, transition, hn, stackFinalState, stackBranch, List.range']
  | succ m ih =>
    intro k hk
    have hlt : k + 1 < plan.groups.length := by omega
    have hrec := ih (k + 1) (by omega)
    have htr : transition (.stack_committing git plan k) (.stack_commit_done (k + 1)) =
        ⟨.stack_committing git plan (k + 1),
          [.execute_stack_commit (plan.groups[k + 1]!) plan.branchName false false (k + 1)]⟩ := by
      simp [transition, if_pos hlt]
    have hev : (List.range' (k + 1) (m + 1 + 1)).map Event.stack_commit_done =
        Event.stack_commit_done (k + 1) ::
          (List.range' (k + 1 + 1) (m + 1)).map Event.stack_commit_done := rfl
    rw [hev, runMachine_cons]
    simp only [htr]
    rw [hrec]
    have hev2 : (List.range' (k + 1) (m + 1)).map (fun i =>
        Effect.execute_stack_commit (plan.groups[i]!) plan.branchName false false i) =
      Effect.execute_stack_commit (plan.groups[k + 1]!) plan.branchName false false (k + 1) ::
        (List.range' (k + 1 + 1) m).map (fun i =>
          Effect.execute_stack_commit (plan.groups[i]!) plan.branchName false false i) := rfl
    rw [hev2]
    simp

/-- C4: a `StackPlan` with `N ≥ 1` groups delivered by `stack_plan_generated`
in `picking_files`, driven by in-order `stack_commit_done` events
(`nextIndex` = previous index + 1), makes the machine emit exactly `N`
`execute_stack_commit` effects in group order with indices `0..N-1`
(the first with `isFirst = true`), then advance to `post_commit_checking_pr`
with the synthesized commit message equal to the groups' messages joined in
order. -/
theorem stack_plan_run (git : GitContext) (files : List FileEntry) (plan : StackPlan)
    (h : 0 < plan.groups.length) :
    runMachine (.picking_files git files)
        (Event.stack_plan_generated plan ::
          (List.range' 1 plan.groups.length).map Event.stack_commit_done) =
      (.post_commit_checking_pr { git with onMain := false }
          ⟨(if git.onMain then plan.branchName else git.currentBranch),
            String.intercalate "\n" (plan.groups.map StackGroup.commitMessage),
            plan.prTitle, plan.prBody⟩
          (if git.onMain then plan.branchName else git.currentBranch),
        (List.range plan.groups.length).map (fun i =>
          Effect.execute_stack_commit (plan.groups[i]!) plan.branchName
            (decide (i = 0)) (git.onMain && decide (i = 0)) i)
        ++ [.check_existing_pr
              (if git.onMain then plan.branchName else git.currentBranch)]) := by
  obtain ⟨m, hm⟩ : ∃ m, plan.groups.length = m + 1 := ⟨plan.groups.length - 1, by omega⟩
  have htr : transition (.picking_files git files) (.stack_plan_generated plan) =
      ⟨.stack_committing git plan 0,
        [.execute_stack_commit (plan.groups[0]!) plan.branchName true git.onMain 0]⟩ := rfl
  rw [runMachine_cons]
  simp only [htr]
  rw [hm]
  have hloop := runMachine_stack_loop git plan m 0 (by omega)
  simp only [Nat.zero_add] at hloop
  rw [hloop]
  have hmap : (List.range (m + 1)).map (fun i =>
      Effect.execute_stack_commit (plan.groups[i]!) plan.branchName
        (decide (i = 0)) (git.onMain && decide (i = 0)) i) =
      Effect.execute_stack_commit (plan.groups[0]!) plan.branchName true git.onMain 0 ::
        (List.range' 1 m).map (fun i =>
          Effect.execute_stack_commit (plan.groups[i]!) plan.branchName false false i) := by
    rw [List.range_eq_range']
    have h0 : List.range' 0 (m + 1) = 0 :: List.range' 1 m := rfl
    rw [h0, List.map_cons]
    refine congrArg₂ List.cons (by simp) ?_
    refine List.map_congr_left fun i hi => ?_
    have h1 : 1 ≤ i := (List.mem_range'_1.mp hi).1
    have h2 : i ≠ 0 := by omega
    simp [h2]
  rw [hmap]
  simp [stackFinalState, stackBranch]

/-- Witness for C4: the concrete two-group plan run end to end from
`picking_files`, with both effects and the joined commit message evaluated. -/
theorem stack_plan_run_witness :
    0 < samplePlan.groups.length ∧
      runMachine (.picking_files sampleGit [])
          (Event.stack_plan_generated samplePlan ::
            (List.range' 1 samplePlan.groups.length).map Event.stack_commit_done) =
        (.post_commit_checking_pr { sampleGit with onMain := false }
            ⟨"feat-x", "feat: part one\nfeat: part two", "feat: stack", "stack body"⟩
            "feat-x",
          [.execute_stack_commit ⟨["a.ts"], "feat: part one"⟩ "feat-stack" true false 0,
            .execute_stack_commit ⟨["b.ts"], "feat: part two"⟩ "feat-stack" false false 1,
            .check_existing_pr "feat-x"]) := by
  refine ⟨by decide, ?_⟩
  have h := stack_plan_run sampleGit [] samplePlan (by decide)
  simpa [samplePlan, sampleGit] using h

/-- Whether an effect is `stage_files` (staging performed). -/
def isStageFilesEff : Effect → Bool
  | .stage_files _ => true
  | _ => false

/-- Whether an effect ends the staged-but-uncommitted window: committing the
staged files (`commit_only`, `execute_stack_commit`) or unstaging them
(`unstage_all`). -/
def clearsStaging : Effect → Bool
  | .commit_only _ _ _ => true
  | .execute_stack_commit _ _ _ _ _ => true
  | .unstage_all => true
  | _ => false

/-- Track, along a run, whether a `stage_files` effect has been emitted with
no commit or unstage effect since. -/
def stagedUpdate (p : Bool) (effs : List Effect) : Bool :=
  if effs.any isStageFilesEff then true
  else if effs.any clearsStaging then false
  else p

/-- Reachability of a state in a run of the machine from `preflight`, paired
with the staged-pending flag accumulated from the emitted effects. -/
inductive Reach : State → Bool → Prop where
  | init : Reach .preflight false
  | step (s : State) (p : Bool) (e : Event) (h : Reach s p) :
      Reach (transition s e).state (stagedUpdate p (transition s e).effects)

/-- The states that sit between the emission of `stage_files` and the
emission of the commit (or unstage) effect. -/
def stagedWindow : State → Bool
  | .staging_files _ _ => true
  | .getting_diff _ => true
  | .generating_details _ _ => true
  | .confirming_branch _ _ => true
  | .confirming_commit _ _ _ => true
  | .editing_commit _ _ _ => true
  | _ => false

/-- Invariant attached to a raised staged-pending flag: the machine is inside
the staged window, or has died in the `error` sink. -/
def stagedInv (s : State) : Bool :=
  stagedWindow s || State.isError s

/-- Any transition that emits `stage_files` lands in the staged window. -/
theorem stage_effect_enters_window (s : State) (e : Event)
    (h : (transition s e).effects.any isStageFilesEff = true) :
    stagedWindow (transition s e).state = true := by
  cases s <;> cases e <;>
    simp only [transition, continueAfterPullCheck, startStackCommitting, invalid] at h ⊢ <;>
    (repeat' split at h) <;> (repeat' split) <;>
    simp_all [isStageFilesEff, stagedWindow]

/-- From inside the staged window, every transition either emits a
staging-clearing effect or stays inside the window (possibly dying in the
`error` sink). -/
theorem window_step_preserves (s : State) (e : Event)
    (hw : stagedWindow s = true) :
    (transition s e).effects.any clearsStaging = true ∨
      stagedInv (transition s e).state = true := by
  cases s <;> simp [stagedWindow] at hw <;>
    (cases e <;>
      simp only [transition, invalid] <;>
      (repeat' split) <;>
      simp [clearsStaging, stagedInv, stagedWindow, State.isError])

/-- The `error` sink steps to itself. -/
theorem error_step_isError (m : String) (e : Event) :
    State.isError (transition (.error m) e).state = true := by
  cases e <;> rfl

/-- An `error` state is not a `cancelled` state. -/
theorem isCancelled_eq_false_of_isError (s : State)
    (h : State.isError s = true) :
    State.isCancelled s = false := by
  cases s <;> simp_all [State.isError, State.isCancelled]

/-- In any run from `preflight`, a raised staged-pending flag puts the
current state inside the staged window (or the `error` sink). -/
theorem reach_staged_inv (s : State) (p : Bool) (h : Reach s p) :
    p = true → stagedInv s = true := by
  induction h with
  | init => intro hp; exact absurd hp (by simp)
  | step s p e hr ih =>
    intro hp
    by_cases h1 : (transition s e).effects.any isStageFilesEff = true
    · have hw := stage_effect_enters_window s e h1
      simp [stagedInv, hw]
    · by_cases h2 : (transition s e).effects.any clearsStaging = true
      · exact absurd hp (by simp [stagedUpdate, h1, h2])
      · have hp' : p = true := by
          simpa [stagedUpdate, h1, h2] using hp
        have hs := ih hp'
        rcases Bool.or_eq_true_iff.mp hs with hwin | herr
        · rcases window_step_preserves s e hwin with hclr | hinv
          · exact absurd hclr h2
          · exact hinv
        · have hse : ∃ m, s = .error m := by
            cases s <;> simp_all [State.isError]
          obtain ⟨m, rfl⟩ := hse
          simp [stagedInv, error_step_isError m e]

/-- From inside the staged window, any transition into `cancelled` carries an
`unstage_all` effect. -/
theorem window_cancel_unstages (s : State) (e : Event)
    (hw : stagedWindow s = true)
    (hc : State.isCancelled (transition s e).state = true) :
    Effect.unstage_all ∈ (transition s e).effects := by
  cases s <;> simp [stagedWindow] at hw <;>
    (cases e <;>
      simp only [transition, invalid] at hc ⊢ <;>
      (repeat' split at hc) <;> (repeat' split) <;>
      simp_all [State.isCancelled])

/-- C3: in every run of the machine from `preflight`, a transition producing
the `cancelled` terminal state while a `stage_files` effect is pending (i.e.
emitted, with no commit or unstage since) carries an `unstage_all`
compensating effect — these are exactly the cancellations from
`generating_details`, `confirming_branch` and `confirming_commit`. -/
theorem cancellation_after_staging (s : State) (e : Event)
    (h : Reach s true)
    (hc : State.isCancelled (transition s e).state = true) :
    Effect.unstage_all ∈ (transition s e).effects := by
  have hinv := reach_staged_inv s true h rfl
  rcases Bool.or_eq_true_iff.mp hinv with hwin | herr
  · exact window_cancel_unstages s e hwin hc
  · have hse : ∃ m, s = .error m := by
      cases s <;> simp_all [State.isError]
    obtain ⟨m, rfl⟩ := hse
    have := isCancelled_eq_false_of_isError _ (error_step_isError m e)
    simp_all

/-- Witness for C3: a concrete run from `preflight` that stages one file and
then receives `user_cancelled` while generating details; the cancelling
transition carries `unstage_all`. -/
theorem cancellation_after_staging_witness :
    Effect.unstage_all ∈
      (transition (.generating_details sampleGit "diff") .user_cancelled).effects := by
  have r0 : Reach .preflight false := .init
  have r1 : Reach (.collecting_files sampleGit) false :=
    Reach.step _ _ (.tools_ok sampleGit) r0
  have r2 : Reach (.picking_files sampleGit []) false :=
    Reach.step _ _ (.files_collected []) r1
  have r3 : Reach (.staging_files sampleGit ["a.ts"]) true :=
    Reach.step _ _ (.files_picked ["a.ts"]) r2
  have r4 : Reach (.getting_diff sampleGit) true :=
    Reach.step _ _ (.files_staged "1 file changed") r3
  have r5 : Reach (.generating_details sampleGit "diff") true :=
    Reach.step _ _ (.diff_ready "diff") r4
  exact cancellation_after_staging _ _ r5 rfl

/-- The data carried by a `confirming_pull` state, `none` for any other state. -/
def confirmingPullData : State → Option (GitContext × Nat)
  | .confirming_pull g b => some (g, b)
  | _ => none

set_option maxHeartbeats 1600000 in
/-- C6: `confirming_pull` is entered exactly from `checking_remote` on a
`remote_status` event with `behind > 0`; with `behind = 0` the transition
from `checking_remote` equals `continueAfterPullCheck` on the same
`GitContext`, the outcome had no pull check happened. -/
theorem confirming_pull_iff_behind_positive :
    (∀ (s : State) (e : Event) (g : GitContext) (b : Nat),
        confirmingPullData (transition s e).state = some (g, b) →
          s = .checking_remote g ∧ e = .remote_status b ∧ 0 < b)
    ∧ (∀ (g : GitContext) (b : Nat), 0 < b →
        transition (.checking_remote g) (.remote_status b) =
          ⟨.confirming_pull g b, [.prompt_confirm_pull b]⟩)
    ∧ (∀ g : GitContext,
        transition (.checking_remote g) (.remote_status 0) = continueAfterPullCheck g) := by
  refine ⟨?_, ?_, ?_⟩
  · intro s e g b h
    cases s <;> cases e <;>
      (try simp only [transition, continueAfterPullCheck, startStackCommitting,
        invalid] at h) <;>
      (repeat' split at h) <;>
      simp_all [confirmingPullData]
  · intro g b hb
    simp [transition, hb]
  · intro g
    simp [transition]

/-- Witness for C6: a concrete `remote_status` with `behind = 2` enters
`confirming_pull`, and the extraction direction applies to it. -/
theorem confirming_pull_iff_behind_positive_witness :
    confirmingPullData
        (transition (.checking_remote sampleGit) (.remote_status 2)).state
        = some (sampleGit, 2) ∧
      transition (.checking_remote sampleGit) (.remote_status 2) =
        ⟨.confirming_pull sampleGit 2, [.prompt_confirm_pull 2]⟩ :=
  ⟨rfl, confirming_pull_iff_behind_positive.2.1 sampleGit 2 (by decide)⟩

/-- Witness for C10 with a feature-branch context (`onMain = false`). -/
theorem stack_completion_branch_choice_witness :
    samplePlan.groups.length ≤ 2 ∧ sampleGit.onMain = false ∧
      transition (.stack_committing sampleGit samplePlan 1) (.stack_commit_done 2) =
        ⟨.post_commit_checking_pr { sampleGit with onMain := false }
            ⟨"feat-x", "feat: part one\nfeat: part two", "feat: stack", "stack body"⟩
            "feat-x",
          [.check_existing_pr "feat-x"]⟩ :=
  ⟨by decide, rfl,
    (stack_completion_branch_choice sampleGit samplePlan 1 2 (by decide)).1 rfl⟩

end Ship
